import Mathlib

/-!
Shallow embedding of the `platform-core-go` repository's retry/backoff engine
(`internal/httpx`), Cloudflare request pipeline (`cloudflare`), scope path
construction (`cloudflare/scope.go`), and Vault KV v2 client (`vault`),
together with theorems settling the specification claims.

Durations are modelled as integer nanosecond counts (Go `time.Duration` is an
`int64` nanosecond count); the source's `float64` backoff arithmetic is
modelled with exact rational/integer arithmetic.
-/

namespace PlatformCore

/-! ### internal/httpx: backoff calculator and retry executor -/

/-- `defaultMaxRetries` in package `httpx`. -/
def defaultMaxRetries : ℤ := 3

/-- `defaultBaseDelay = 1 * time.Second` in nanoseconds. -/
def defaultBaseDelay : ℤ := 1000000000

/-- `defaultMaxDelay = 30 * time.Second` in nanoseconds. -/
def defaultMaxDelay : ℤ := 30000000000

/-- `maxJitterFraction = 0.1`. -/
def maxJitterFraction : ℚ := 1 / 10

/-- `httpx.RetryConfig` (the data fields; the `RandomFloat` and `Sleep`
function fields are passed explicitly to the retry executor below, with the
source's nil-defaults — constant-zero sample, context sleep — supplied by the
caller of the model). -/
structure RetryConfig where
  maxRetries : ℤ
  baseDelay : ℤ
  maxDelay : ℤ
  enableJitter : Bool
deriving Repr, DecidableEq

/-- `RetryConfig.withDefaults`: negative `MaxRetries` is clamped to 0, and a
zero (unset) `MaxRetries` then receives the default; non-positive delays
receive the defaults. -/
def RetryConfig.withDefaults (c : RetryConfig) : RetryConfig :=
  let mr := if c.maxRetries < 0 then 0 else c.maxRetries
  let mr := if mr = 0 then defaultMaxRetries else mr
  let bd := if c.baseDelay ≤ 0 then defaultBaseDelay else c.baseDelay
  let md := if c.maxDelay ≤ 0 then defaultMaxDelay else c.maxDelay
  { maxRetries := mr, baseDelay := bd, maxDelay := md,
    enableJitter := c.enableJitter }

/-- The attempt clamp at the top of `ExponentialBackoffDelay`:
`if attempt < 0 { attempt = 0 }`, as the natural-number exponent. -/
def effAttempt (attempt : ℤ) : ℕ :=
  (if attempt < 0 then 0 else attempt).toNat

/-- The base-delay fallback in `ExponentialBackoffDelay`. -/
def effBase (baseDelay : ℤ) : ℤ :=
  if baseDelay ≤ 0 then defaultBaseDelay else baseDelay

/-- The max-delay fallback in `ExponentialBackoffDelay`. -/
def effMax (maxDelay : ℤ) : ℤ :=
  if maxDelay ≤ 0 then defaultMaxDelay else maxDelay

/-- `math.MaxInt64 = 2^63 - 1`, the largest `time.Duration`. -/
def int64Max : ℤ := 9223372036854775807

/-- `math.MinInt64 = -2^63`, the smallest `time.Duration`. -/
def int64Min : ℤ := -9223372036854775808

/-- Two's-complement wraparound of Go `int64` arithmetic (`2^63` and `2^64`
written as literals). -/
def wrap64 (n : ℤ) : ℤ :=
  (n + 9223372036854775808) % 18446744073709551616 - 9223372036854775808

/-- Go's `float64`→`int64` conversion (`time.Duration(x)` on a float), as
implemented by gc/amd64 `cvttsd2si`: truncation toward zero when the
truncated value fits in `int64`, otherwise `MinInt64` (the Go spec leaves the
out-of-range case implementation-dependent; this is the behavior of the
reference implementation the repository targets). -/
def durationOfFloat (x : ℚ) : ℤ :=
  let t : ℤ := if x < 0 then ⌈x⌉ else ⌊x⌋
  if t < int64Min ∨ int64Max < t then int64Min else t

/-- `backoff := float64(baseDelay) * math.Pow(2, float64(attempt))` followed
by `delay := time.Duration(backoff)` and the cap
`if delay > maxDelay { delay = maxDelay }`.  The float product is the exact
rational `base * 2^attempt` whenever `base ≤ 2^53` (power-of-two scaling is
exact in float64 below overflow, and a float overflow truncates outside the
int64 range, where `durationOfFloat` clamps identically); an overflowing
conversion yields `MinInt64`, which being negative escapes the
`delay > maxDelay` cap. -/
def cappedDelay (attempt baseDelay maxDelay : ℤ) : ℤ :=
  let backoff : ℚ := (effBase baseDelay : ℚ) * 2 ^ effAttempt attempt
  let delay := durationOfFloat backoff
  if delay > effMax maxDelay then effMax maxDelay else delay

/-- The jitter-sample clamp: `[0, 0.999999]`. -/
def clampJitter (jitterValue : ℚ) : ℚ :=
  if jitterValue < 0 then 0
  else if jitterValue > 999999 / 1000000 then 999999 / 1000000
  else jitterValue

/-- `httpx.ExponentialBackoffDelay`.  The jitter term
`jitter := time.Duration(float64(delay) * 0.1 * jitterValue)` is the
float→int64 conversion of the (exactly modelled) product, and the final
`delay + jitter` is `int64` addition, which wraps. -/
def ExponentialBackoffDelay (attempt baseDelay maxDelay : ℤ)
    (enableJitter : Bool) (jitterValue : ℚ) : ℤ :=
  let delay := cappedDelay attempt baseDelay maxDelay
  if !enableJitter then delay
  else
    let jitter := durationOfFloat
      ((delay : ℚ) * maxJitterFraction * clampJitter jitterValue)
    wrap64 (delay + jitter)

/-- Inner loop of `httpx.Retry`, deterministic trace form.  `operation i` is
the error (`none` = success) produced by the `i`-th invocation, `sleep i d`
the result of the `i`-th sleep of duration `d` (`some e` = cancellation
error), `randomFloat i` the `i`-th jitter sample.  `left` is
`MaxRetries - attempt` (the loop's `attempt >= config.MaxRetries` exit is
`left = 0`).  Returns (number of invocations of `operation`, final result:
`none` = success, `some e` = returned error). -/
def retryFrom {ε : Type} (randomFloat : ℕ → ℚ) (sleep : ℕ → ℤ → Option ε)
    (shouldRetry : ε → Bool) (operation : ℕ → Option ε)
    (baseDelay maxDelay : ℤ) (enableJitter : Bool) (attempt : ℕ) :
    ℕ → ℕ × Option ε
  | 0 =>
    match operation attempt with
    | none => (1, none)
    | some e => (1, some e)
  | left + 1 =>
    match operation attempt with
    | none => (1, none)
    | some e =>
      if !shouldRetry e then (1, some e)
      else
        let delay := ExponentialBackoffDelay (attempt : ℤ) baseDelay maxDelay
          enableJitter (randomFloat attempt)
        match sleep attempt delay with
        | some sleepErr => (1, some sleepErr)
        | none =>
          let rest := retryFrom randomFloat sleep shouldRetry operation
            baseDelay maxDelay enableJitter (attempt + 1) left
          (rest.1 + 1, rest.2)

/-- `httpx.Retry`: applies `withDefaults` then runs the attempt loop from
attempt 0. -/
def Retry {ε : Type} (cfg : RetryConfig) (randomFloat : ℕ → ℚ)
    (sleep : ℕ → ℤ → Option ε) (shouldRetry : ε → Bool)
    (operation : ℕ → Option ε) : ℕ × Option ε :=
  let config := cfg.withDefaults
  retryFrom randomFloat sleep shouldRetry operation
    config.baseDelay config.maxDelay config.enableJitter 0
    config.maxRetries.toNat

/-! ### Go standard-library string helpers used by the cloudflare and vault
packages -/

/-- `unicode.IsSpace` restricted to the Latin-1 range, which is what the
strings handled here contain: `\t \n \v \f \r ' '` and `U+0085`, `U+00A0`. -/
def goIsSpace (c : Char) : Bool :=
  c = ' ' || c = '\t' || c = '\n' || c.toNat = 11 || c.toNat = 12 ||
    c = '\r' || c.toNat = 133 || c.toNat = 160

/-- `strings.TrimSpace`. -/
def goTrimSpace (s : String) : String :=
  String.mk (((s.toList.dropWhile goIsSpace).reverse.dropWhile
    goIsSpace).reverse)

/-- Decimal digits to a number. -/
def digitsToNat (ds : List Char) : ℕ :=
  ds.foldl (fun acc c => acc * 10 + (c.toNat - 48)) 0

/-- `strconv.Atoi`: an optional sign followed by one or more decimal digits,
nothing else; values outside the `int64` range are an error (`none`). -/
def goAtoi (s : String) : Option ℤ :=
  let signed : ℤ × List Char :=
    match s.toList with
    | '+' :: rest => (1, rest)
    | '-' :: rest => (-1, rest)
    | rest => (1, rest)
  let ds := signed.2
  if ds = [] then none
  else if ds.all Char.isDigit then
    let v : ℤ := signed.1 * (digitsToNat ds : ℤ)
    if v < -(2 ^ 63) ∨ 2 ^ 63 - 1 < v then none else some v
  else none

/-- `strings.Trim(s, "/")`: leading and trailing slashes removed. -/
def goTrimSlashes (s : String) : String :=
  String.mk (((s.toList.dropWhile (· = '/')).reverse.dropWhile
    (· = '/')).reverse)

/-! ### cloudflare: Retry-After parsing and retry delay selection -/

/-- `cloudflare.parseRetryAfter`.  `timeUntil` models the composition of
`http.ParseTime` and `time.Until`: `none` when the header does not parse as
an HTTP date, otherwise the signed nanosecond distance from now to the parsed
date.  The result is `none` exactly when the source returns `ok = false`.
The positive-seconds branch is the source's
`time.Duration(seconds) * time.Second`, an `int64` multiplication that
wraps. -/
def parseRetryAfter (timeUntil : String → Option ℤ) (value : String) :
    Option ℤ :=
  let trimmed := goTrimSpace value
  if trimmed = "" then none
  else
    match goAtoi trimmed with
    | some seconds =>
      if seconds ≤ 0 then some 0
      else some (wrap64 (seconds * 1000000000))
    | none =>
      match timeUntil trimmed with
      | none => none
      | some delay => if delay < 0 then some 0 else some delay

/-- `cloudflare.Client.retryDelay`: the server-supplied Retry-After value
when parseable, otherwise the exponential backoff calculator (with jitter
enabled and a fresh random sample). -/
def retryDelay (timeUntil : String → Option ℤ)
    (attempt baseDelay maxDelay : ℤ) (jitterSample : ℚ)
    (retryAfterHeader : String) : ℤ :=
  match parseRetryAfter timeUntil retryAfterHeader with
  | some delay => delay
  | none => ExponentialBackoffDelay attempt baseDelay maxDelay true
      jitterSample

/-! ### cloudflare/scope.go: scope kinds and path construction -/

/-- Upper-case hexadecimal digit, as used by `net/url` escaping. -/
def upperHex (n : ℕ) : Char :=
  if n < 10 then Char.ofNat (48 + n) else Char.ofNat (55 + n)

/-- `net/url.shouldEscape` for the path-segment encoding mode, over a byte
value: alphanumerics, `- _ . ~` and the reserved characters `$ & + : = @`
are kept; `/ ; , ?` and every other byte are escaped. -/
def shouldEscapePathSegment (b : ℕ) : Bool :=
  if 48 ≤ b ∧ b ≤ 57 then false
  else if 65 ≤ b ∧ b ≤ 90 then false
  else if 97 ≤ b ∧ b ≤ 122 then false
  else if b = 45 ∨ b = 95 ∨ b = 46 ∨ b = 126 then false
  else if b = 36 ∨ b = 38 ∨ b = 43 ∨ b = 58 ∨ b = 61 ∨ b = 64 then false
  else true

/-- UTF-8 encoding of one character, as byte values. -/
def utf8EncodeCharM (c : Char) : List ℕ :=
  let v := c.toNat
  if v < 128 then [v]
  else if v < 2048 then [192 + v / 64, 128 + v % 64]
  else if v < 65536 then
    [224 + v / 4096, 128 + (v / 64) % 64, 128 + v % 64]
  else
    [240 + v / 262144, 128 + (v / 4096) % 64, 128 + (v / 64) % 64,
      128 + v % 64]

/-- The UTF-8 bytes of a string. -/
def stringUTF8Bytes (s : String) : List ℕ :=
  (s.toList.map utf8EncodeCharM).flatten

/-- One byte of `url.PathEscape` output. -/
def escapeByte (b : ℕ) : String :=
  if shouldEscapePathSegment b then
    String.mk ['%', upperHex (b / 16), upperHex (b % 16)]
  else String.mk [Char.ofNat b]

/-- `net/url.PathEscape`. -/
def pathEscape (s : String) : String :=
  String.join ((stringUTF8Bytes s).map escapeByte)

/-- `cloudflare.Scope`: `Kind` is the `ScopeKind` string (`"accounts"` or
`"zones"` for the declared constants), `ID` the resource identifier. -/
structure Scope where
  kind : String
  id : String
deriving Repr, DecidableEq

/-- `cloudflare.AccountScope`: account kind, identifier trimmed. -/
def accountScope (accountID : String) : Scope :=
  ⟨"accounts", goTrimSpace accountID⟩

/-- `cloudflare.ZoneScope`: zone kind, identifier trimmed. -/
def zoneScope (zoneID : String) : Scope :=
  ⟨"zones", goTrimSpace zoneID⟩

/-- `cloudflare.Scope.PathPrefix` (named `pathPrefixGo` here): validates the
kind against the closed set and the stored ID against emptiness, then yields
`"{kind}/{urlEscapedID}"`. -/
def Scope.pathPrefixGo (s : Scope) : Except String String :=
  if s.kind = "accounts" ∨ s.kind = "zones" then
    if s.id = "" then
      Except.error ("scope ID must not be empty for \"" ++ s.kind ++ "\"")
    else Except.ok (s.kind ++ "/" ++ pathEscape s.id)
  else Except.error ("unsupported scope kind: \"" ++ s.kind ++ "\"")

/-- Success test on `Except`. -/
def exceptIsOk {ε α : Type} : Except ε α → Bool
  | .ok _ => true
  | .error _ => false

/-! ### cloudflare: envelope types and the request pipeline `Client.Do` -/

/-- `cloudflare.APIErrorItem`. -/
structure APIErrorItem where
  code : ℤ
  message : String
deriving Repr, DecidableEq

/-- `cloudflare.formatAPIErrors`. -/
def formatAPIErrors (items : List APIErrorItem) : String :=
  if items = [] then "unknown API error"
  else
    String.intercalate ", " (items.map fun item =>
      if item.code = 0 then item.message
      else toString item.code ++ ":" ++ item.message)

/-- `cloudflare.ResultInfo` (pagination metadata). -/
structure ResultInfo where
  page : ℤ
  perPage : ℤ
  totalPages : ℤ
  count : ℤ
  totalCount : ℤ
deriving Repr, DecidableEq

/-- The `result` field of a decoded envelope as seen by `Client.Do`:
empty/`null` raw message, a payload that decodes into the caller's target
type `α`, or a payload that fails to decode into `α`. -/
inductive ResultPayload (α : Type)
  | emptyOrNull
  | value (a : α)
  | undecodable
deriving Repr, DecidableEq

/-- `cloudflare.envelope` as decoded from a response body. -/
structure Envelope (α : Type) where
  success : Bool
  errors : List APIErrorItem
  result : ResultPayload α
  resultInfo : Option ResultInfo
deriving Repr, DecidableEq

/-- A response body: either not valid envelope JSON, or a decoded
envelope. -/
inductive Body (α : Type)
  | notJSON
  | env (e : Envelope α)
deriving Repr, DecidableEq

/-- One transport invocation's outcome: `c.cfg.HTTPClient.Do(req)` either
fails with no response, or yields a status code and a body. -/
inductive TransportOutcome (α : Type)
  | failure
  | response (status : ℕ) (body : Body α)
deriving Repr, DecidableEq

/-- The result of `Client.Do`: each error constructor mirrors one `return`
site of the source; `ok none` is success without decoding (nil target or
empty/null result), `ok (some a)` success with a decoded result. -/
inductive DoResult (α : Type)
  | transportFailed
  | httpStatusError (status : ℕ)
  | envelopeDecodeFailed
  | apiUnsuccessful (msg : String)
  | resultDecodeFailed
  | ok (out : Option α)
deriving Repr, DecidableEq

/-- `cloudflare.shouldRetryStatus`: 408, 429 and 5xx. -/
def shouldRetryStatus (st : ℕ) : Bool :=
  st == 408 || st == 429 || (decide (500 ≤ st) && decide (st ≤ 599))

/-- The non-retrying tail of one `Client.Do` loop iteration, after the
status-retry check: terminal status error, envelope decode, success-flag
check, result decode. -/
def handleResponse {α : Type} (st : ℕ) (body : Body α) (wantOut : Bool) :
    ℕ × DoResult α :=
  if st < 200 ∨ 300 ≤ st then (1, .httpStatusError st)
  else
    match body with
    | .notJSON => (1, .envelopeDecodeFailed)
    | .env e =>
      if e.success then
        match wantOut, e.result with
        | false, _ => (1, .ok none)
        | true, .emptyOrNull => (1, .ok none)
        | true, .value a => (1, .ok (some a))
        | true, .undecodable => (1, .resultDecodeFailed)
      else
        (1, .apiUnsuccessful ("cloudflare API returned unsuccessful response: "
          ++ formatAPIErrors e.errors))

/-- The attempt loop of `Client.Do`.  `outcomes i` is the transport outcome
of the `i`-th request; the second argument is `MaxRetries - attempt` (the
loop's `attempt >= c.cfg.MaxRetries` exits are its zero case); sleeps always
complete (uncancelled context).  Returns (number of transport requests
issued, result). -/
def doFrom {α : Type} (outcomes : ℕ → TransportOutcome α) (wantOut : Bool) :
    ℕ → ℕ → ℕ × DoResult α
  | attempt, 0 =>
    match outcomes attempt with
    | .failure => (1, .transportFailed)
    | .response st body => handleResponse st body wantOut
  | attempt, left + 1 =>
    match outcomes attempt with
    | .failure =>
      let rest := doFrom outcomes wantOut (attempt + 1) left
      (rest.1 + 1, rest.2)
    | .response st body =>
      if shouldRetryStatus st then
        let rest := doFrom outcomes wantOut (attempt + 1) left
        (rest.1 + 1, rest.2)
      else handleResponse st body wantOut

/-- `cloudflare.Client.Do`: the attempt loop from attempt 0 with the
configured `MaxRetries` budget.  The `method` argument is accepted exactly as
in the source, which never consults it when deciding whether to retry. -/
def clientDo {α : Type} (method : String) (maxRetries : ℕ)
    (outcomes : ℕ → TransportOutcome α) (wantOut : Bool) : ℕ × DoResult α :=
  let _ := method
  doFrom outcomes wantOut 0 maxRetries

/-- `cloudflare.Zone`. -/
structure Zone where
  id : String
  name : String
deriving Repr, DecidableEq

/-- `cloudflare.Client.ListZones`: one call to `Do` with a nil-initialized
slice target; a nil slice (undeoded result) is returned as the empty list. -/
def listZones (maxRetries : ℕ)
    (outcomes : ℕ → TransportOutcome (List Zone)) : ℕ × DoResult (List Zone) :=
  match clientDo "GET" maxRetries outcomes true with
  | (n, .ok none) => (n, .ok (some []))
  | other => other

/-- Errors of `Client.ZoneIDByName`: the empty-name validation error, a
propagated `Do` error, or the wrap of the `ErrZoneNotFound` sentinel. -/
inductive ZoneLookupErr
  | emptyName
  | requestError (r : DoResult (List Zone))
  | zoneNotFound (name : String)
deriving Repr, DecidableEq

/-- `errors.Is(err, ErrZoneNotFound)`: true exactly for the sentinel wrap. -/
def isZoneNotFound : ZoneLookupErr → Bool
  | .zoneNotFound _ => true
  | _ => false

/-- `cloudflare.Client.ZoneIDByName`. -/
def zoneIDByName (maxRetries : ℕ) (zoneName : String)
    (outcomes : ℕ → TransportOutcome (List Zone)) :
    ℕ × Except ZoneLookupErr String :=
  if goTrimSpace zoneName = "" then (0, .error .emptyName)
  else
    match clientDo "GET" maxRetries outcomes true with
    | (n, .ok none) => (n, .error (.zoneNotFound zoneName))
    | (n, .ok (some [])) => (n, .error (.zoneNotFound zoneName))
    | (n, .ok (some (z :: _))) => (n, .ok z.id)
    | (n, e) => (n, .error (.requestError e))

/-! ### vault: KV v2 read -/

/-- The decode of a Vault read body into the nested
`{"data": {"data": {...}}}` shape: decode failure, a decode whose nested
`data.data` is absent/null (`nil` map), or a present mapping. -/
inductive VaultBody (α : Type)
  | undecodable
  | decoded (dataData : Option (List (String × α)))
deriving Repr, DecidableEq

/-- A Vault HTTP response: status, raw body text, and the body's decode
(`body` models `json.Unmarshal` applied to `rawBody`). -/
structure VaultResponse (α : Type) where
  status : ℕ
  rawBody : String
  body : VaultBody α

/-- Errors of `vault.Client.ReadKVv2`, one constructor per `return` site. -/
inductive VaultErr
  | emptyEngine
  | emptyPath
  | transportFailed
  | secretNotFound (path : String)
  | readFailed (status : ℕ) (body : String)
  | decodeFailed
  | missingSecretData (path : String)
deriving Repr, DecidableEq

/-- `errors.Is(err, ErrSecretNotFound)`: true exactly for the sentinel
wrap. -/
def isSecretNotFound : VaultErr → Bool
  | .secretNotFound _ => true
  | _ => false

/-- The error text of each `vault.Client.ReadKVv2` failure return. -/
def vaultErrMessage : VaultErr → String
  | .emptyEngine => "secrets engine must not be empty"
  | .emptyPath => "secret path must not be empty"
  | .transportFailed => "vault read request failed"
  | .secretNotFound p => "vault secret not found: " ++ p
  | .readFailed st b =>
      "vault read failed with status " ++ toString st ++ ": " ++ goTrimSpace b
  | .decodeFailed => "decode vault read response"
  | .missingSecretData p =>
      "vault response missing secret data at path: " ++ p

/-- `vault.Client.ReadKVv2`: URL validation (trimmed mount and path must be
non-empty), transport, 404 sentinel, generic status check, body decode, and
the nil `data.data` check. -/
def readKVv2 {α : Type} (secretsEngine secretPath : String)
    (transport : Option (VaultResponse α)) :
    Except VaultErr (List (String × α)) :=
  let mount := goTrimSlashes (goTrimSpace secretsEngine)
  let path := goTrimSlashes (goTrimSpace secretPath)
  if mount = "" then .error .emptyEngine
  else if path = "" then .error .emptyPath
  else
    match transport with
    | none => .error .transportFailed
    | some resp =>
      if resp.status = 404 then .error (.secretNotFound secretPath)
      else if resp.status < 200 ∨ 300 ≤ resp.status then
        .error (.readFailed resp.status resp.rawBody)
      else
        match resp.body with
        | .undecodable => .error .decodeFailed
        | .decoded none => .error (.missingSecretData secretPath)
        | .decoded (some m) => .ok m

/-! ### Helper lemmas for the backoff calculator -/

theorem effMax_pos (m : ℤ) : 0 < effMax m := by
  unfold effMax defaultMaxDelay
  split <;> omega

theorem wrap64_eq_self {n : ℤ} (h1 : int64Min ≤ n) (h2 : n ≤ int64Max) :
    wrap64 n = n := by
  unfold wrap64
  unfold int64Min at h1
  unfold int64Max at h2
  omega

theorem retryFrom_always_fails {ε : Type} (randomFloat : ℕ → ℚ)
    (shouldRetry : ε → Bool) (errF : ℕ → ε) (bd md : ℤ) (ej : Bool)
    (hsr : ∀ e, shouldRetry e = true) :
    ∀ (left attempt : ℕ),
      retryFrom randomFloat (fun _ _ => none) shouldRetry
        (fun i => some (errF i)) bd md ej attempt left =
      (left + 1, some (errF (attempt + left))) := by
  intro left
  induction left with
  | zero => intro attempt; simp [retryFrom]
  | succ l ih =>
    intro attempt
    simp only [retryFrom, hsr, Bool.not_true, Bool.false_eq_true, if_false,
      ih (attempt + 1)]
    have h : attempt + 1 + l = attempt + (l + 1) := by omega
    rw [h]

/-- C1 counterexample: with `maxAttempts = 0` (which the claim covers, since
it quantifies over every `n ≥ 0`), a permanently failing retryable operation
is invoked 4 times, not `0 + 1 = 1`: `withDefaults` treats the zero value as
unset and substitutes the default of 3 retries. -/
theorem C1_counterexample :
    Retry ⟨0, 1000000000, 30000000000, false⟩ (fun _ => 0) (fun _ _ => none)
      (fun _ => true) (fun _ => some ()) = (4, some ()) ∧ (4 : ℕ) ≠ 0 + 1 := by
  constructor
  · rfl
  · omega

/-- C1 (amended): for every `maxAttempts = n ≥ 1` and every operation failing
on every invocation with a retryable error, `httpx.Retry` invokes the
operation exactly `n + 1` times and returns the last observed error unchanged
(not a wrapped sentinel); a `maxAttempts` of 0 or below is treated as unset
and defaulted to 3 retries, yielding exactly 4 invocations. -/
theorem C1_retry_invocation_count :
    (∀ {ε : Type} (cfg : RetryConfig) (n : ℕ), 1 ≤ n →
      cfg.maxRetries = (n : ℤ) →
      ∀ (randomFloat : ℕ → ℚ) (shouldRetry : ε → Bool) (errF : ℕ → ε),
        (∀ e, shouldRetry e = true) →
        Retry cfg randomFloat (fun _ _ => none) shouldRetry
          (fun i => some (errF i)) = (n + 1, some (errF n)))
  ∧ (∀ {ε : Type} (cfg : RetryConfig), cfg.maxRetries ≤ 0 →
      ∀ (randomFloat : ℕ → ℚ) (shouldRetry : ε → Bool) (errF : ℕ → ε),
        (∀ e, shouldRetry e = true) →
        Retry cfg randomFloat (fun _ _ => none) shouldRetry
          (fun i => some (errF i)) = (4, some (errF 3))) := by
  constructor
  · intro ε cfg n hn hmr randomFloat shouldRetry errF hsr
    have h0 : ¬(n : ℤ) < 0 := by omega
    have h1 : ¬(n : ℤ) = 0 := by omega
    have hdef : cfg.withDefaults.maxRetries = (n : ℤ) := by
      simp [RetryConfig.withDefaults, hmr, h0, h1]
    unfold Retry
    rw [retryFrom_always_fails _ _ _ _ _ _ hsr, hdef]
    simp
  · intro ε cfg hmr randomFloat shouldRetry errF hsr
    have hdef : cfg.withDefaults.maxRetries = 3 := by
      rcases lt_or_eq_of_le hmr with h | h <;>
        simp [RetryConfig.withDefaults, h, defaultMaxRetries]
    unfold Retry
    rw [retryFrom_always_fails _ _ _ _ _ _ hsr, hdef]
    simp

/-- C1 witness: `maxAttempts = 2`, a permanently failing operation: 3
invocations, last error returned unchanged. -/
theorem C1_retry_invocation_count_witness :
    Retry ⟨2, 1000000000, 30000000000, false⟩ (fun _ => 0) (fun _ _ => none)
      (fun _ => true) (fun _ => some ()) = (2 + 1, some ()) :=
  C1_retry_invocation_count.1 ⟨2, 1000000000, 30000000000, false⟩ 2
    (by norm_num) rfl (fun _ => 0) (fun _ => true) (fun _ => ())
    (fun _ => rfl)

theorem goAtoi_ne_empty {s : String} {v : ℤ} (h : goAtoi s = some v) :
    s ≠ "" := by
  intro hs
  rw [hs] at h
  exact Option.noConfusion h

/-- C6 counterexample: a Retry-After header of `"9223372037"` parses as a
positive integer accepted by `strconv.Atoi`, but
`time.Duration(seconds) * time.Second` wraps `int64`
(`9223372037 * 10^9 > MaxInt64`): the source returns the wrapped negative
duration, not "that many seconds". -/
theorem C6_counterexample :
    retryDelay (fun _ => none) 0 1 1 0 "9223372037" =
      -9223372036709551616 ∧
    retryDelay (fun _ => none) 0 1 1 0 "9223372037" ≠
      9223372037 * 1000000000 := by
  refine ⟨by decide, by decide⟩

/-- C6 (amended): the retry delay for a retryable response prefers a
parseable Retry-After header: an integer seconds value ≤ 0 yields delay 0; a
positive integer yields the 64-bit-wrapped `seconds * 10^9`, which equals
that many seconds exactly when the product fits in int64
(`seconds ≤ 9223372036`); an HTTP date in the past yields delay 0 (a future
date yields the remaining time); and an absent or unparseable header falls
back to the exponential backoff calculator. -/
theorem C6_retry_after_delay (timeUntil : String → Option ℤ)
    (attempt base maxD : ℤ) (jv : ℚ) (hdr : String) :
    (∀ s : ℤ, goAtoi (goTrimSpace hdr) = some s → s ≤ 0 →
      retryDelay timeUntil attempt base maxD jv hdr = 0)
  ∧ (∀ s : ℤ, goAtoi (goTrimSpace hdr) = some s → 0 < s →
      retryDelay timeUntil attempt base maxD jv hdr =
        wrap64 (s * 1000000000))
  ∧ (∀ s : ℤ, goAtoi (goTrimSpace hdr) = some s → 0 < s →
      s * 1000000000 ≤ int64Max →
      retryDelay timeUntil attempt base maxD jv hdr = s * 1000000000)
  ∧ (∀ d : ℤ, goAtoi (goTrimSpace hdr) = none →
      timeUntil (goTrimSpace hdr) = some d → d < 0 →
      goTrimSpace hdr ≠ "" →
      retryDelay timeUntil attempt base maxD jv hdr = 0)
  ∧ (∀ d : ℤ, goAtoi (goTrimSpace hdr) = none →
      timeUntil (goTrimSpace hdr) = some d → 0 ≤ d →
      goTrimSpace hdr ≠ "" →
      retryDelay timeUntil attempt base maxD jv hdr = d)
  ∧ (goTrimSpace hdr = "" →
      retryDelay timeUntil attempt base maxD jv hdr =
        ExponentialBackoffDelay attempt base maxD true jv)
  ∧ (goAtoi (goTrimSpace hdr) = none →
      timeUntil (goTrimSpace hdr) = none →
      retryDelay timeUntil attempt base maxD jv hdr =
        ExponentialBackoffDelay attempt base maxD true jv) := by
  refine ⟨?_, ?_, ?_, ?_, ?_, ?_, ?_⟩
  · intro s h hs
    simp [retryDelay, parseRetryAfter, goAtoi_ne_empty h, h, hs]
  · intro s h hs
    simp [retryDelay, parseRetryAfter, goAtoi_ne_empty h, h,
      not_le.mpr hs]
  · intro s h hs hfit
    have hge : int64Min ≤ s * 1000000000 := by
      have h1 : (0 : ℤ) < s * 1000000000 := by positivity
      have h2 : int64Min < 0 := by norm_num [int64Min]
      omega
    simp [retryDelay, parseRetryAfter, goAtoi_ne_empty h, h,
      not_le.mpr hs, wrap64_eq_self hge hfit]
  · intro d ha ht hd hne
    simp [retryDelay, parseRetryAfter, hne, ha, ht, hd]
  · intro d ha ht hd hne
    simp [retryDelay, parseRetryAfter, hne, ha, ht, not_lt.mpr hd]
  · intro hempty
    simp [retryDelay, parseRetryAfter, hempty]
  · intro ha ht
    by_cases hne : goTrimSpace hdr = ""
    · simp [retryDelay, parseRetryAfter, hne]
    · simp [retryDelay, parseRetryAfter, hne, ha, ht]

/-- C6 witness: `Retry-After: 0` means retry immediately; `Retry-After: 7`
means 7 seconds (the product fits in int64); an unparseable header falls
back to the calculator. -/
theorem C6_retry_after_delay_witness :
    retryDelay (fun _ => none) 0 1 1 0 "0" = 0 ∧
    retryDelay (fun _ => none) 0 1 1 0 "7" = 7 * 1000000000 ∧
    retryDelay (fun _ => none) 2 5 7 0 "later" =
      ExponentialBackoffDelay 2 5 7 true 0 :=
  ⟨(C6_retry_after_delay (fun _ => none) 0 1 1 0 "0").1 0 (by decide)
      (by decide),
   (C6_retry_after_delay (fun _ => none) 0 1 1 0 "7").2.2.1 7 (by decide)
      (by decide) (by decide),
   (C6_retry_after_delay (fun _ => none) 2 5 7 0 "later").2.2.2.2.2.2
      (by decide) rfl⟩

/-- C8 counterexample: the claim says `PathPrefix` fails exactly when the
kind is invalid or the identifier is empty after trimming whitespace, but a
scope whose stored ID is a bare space (empty after trimming) succeeds: the
function itself never trims, it only compares the stored ID against `""`
(trimming happens in the `AccountScope` / `ZoneScope` constructors). -/
theorem C8_counterexample :
    Scope.pathPrefixGo ⟨"accounts", " "⟩ = Except.ok "accounts/%20" ∧
      goTrimSpace " " = "" := by
  exact ⟨rfl, rfl⟩

/-- C8 (amended): `Scope.PathPrefix` fails with a validation error exactly
when the kind is outside the closed set `{accounts, zones}` or the stored
identifier is the empty string; identifiers are whitespace-trimmed by the
`AccountScope` / `ZoneScope` constructors, so scopes built through them fail
exactly when the raw identifier trims to empty; account scope `"acc-1"`
yields `"accounts/acc-1"` and zone scope `"zone-1"` yields
`"zones/zone-1"`. -/
theorem C8_scope_path :
    (∀ s : Scope, exceptIsOk s.pathPrefixGo = false ↔
      (¬(s.kind = "accounts" ∨ s.kind = "zones") ∨ s.id = ""))
  ∧ (∀ raw : String,
      exceptIsOk (accountScope raw).pathPrefixGo = false ↔
        goTrimSpace raw = "")
  ∧ (∀ raw : String,
      exceptIsOk (zoneScope raw).pathPrefixGo = false ↔
        goTrimSpace raw = "")
  ∧ (accountScope "acc-1").pathPrefixGo = Except.ok "accounts/acc-1"
  ∧ (zoneScope "zone-1").pathPrefixGo = Except.ok "zones/zone-1" := by
  refine ⟨?_, ?_, ?_, rfl, rfl⟩
  · intro s
    by_cases hk : s.kind = "accounts" ∨ s.kind = "zones"
    · rw [Scope.pathPrefixGo, if_pos hk]
      by_cases hid : s.id = "" <;> simp [hid, exceptIsOk, hk]
    · rw [Scope.pathPrefixGo, if_neg hk]
      simp [exceptIsOk, hk]
  · intro raw
    by_cases h : goTrimSpace raw = "" <;>
      simp [accountScope, Scope.pathPrefixGo, exceptIsOk, h]
  · intro raw
    by_cases h : goTrimSpace raw = "" <;>
      simp [zoneScope, Scope.pathPrefixGo, exceptIsOk, h]

theorem shouldRetryStatus_2xx {st : ℕ} (h1 : 200 ≤ st) (h2 : st < 300) :
    shouldRetryStatus st = false := by
  simp only [shouldRetryStatus, Bool.or_eq_false_iff, Bool.and_eq_false_iff,
    beq_eq_false_iff_ne, ne_eq, decide_eq_false_iff_not, not_le]
  omega

/-- C2: the claim says an unsafe method (e.g. POST) with unsafe-method
retries not enabled gets zero extra attempts on a transport failure or a 5xx
response.  The source's `Client.Do` never consults the method: with
`MaxRetries = 3`, a POST met by a permanent 500 is sent 4 times (3 extra
attempts) before the status error is returned, and a POST met by permanent
transport failure is likewise sent 4 times — contradicting the repository's
own test `TestDo_DoesNotRetryUnsafeMethodByDefault`, which requires exactly
one call. -/
theorem C2_post_is_retried :
    clientDo (α := Unit) "POST" 3
      (fun _ => .response 500
        (.env ⟨false, [⟨10013, "temporary failure"⟩], .emptyOrNull, none⟩))
      false = (4, .httpStatusError 500)
  ∧ clientDo (α := Unit) "POST" 3 (fun _ => .failure) false =
      (4, .transportFailed) := by
  exact ⟨rfl, rfl⟩

/-- C3: the claim says a list response reporting `total_pages = 2` causes a
second request and the concatenation of both pages' entries.  The source's
`Client.Do` never reads `env.ResultInfo` and `ListZones` issues a single
request with no `page` parameter: on a first page carrying
`total_pages = 2`, exactly one request is made and only that page's entries
are returned — contradicting the repository's own test
`TestListZones_Paginates` and `docs/behavior-contract.md`. -/
theorem C3_no_pagination :
    listZones 3
      (fun _ => .response 200
        (.env ⟨true, [], .value [⟨"zone-1", "one.acme.com"⟩],
          some ⟨1, 1, 2, 1, 2⟩⟩)) =
      (1, .ok (some [⟨"zone-1", "one.acme.com"⟩])) := by
  exact rfl

/-- C7: a 2xx response whose envelope success flag is false yields a terminal
error after exactly one request (never retried, for every retry budget),
whose message is built from the envelope's error list by `formatAPIErrors`:
an empty list formats as "unknown API error", an item with code 0
contributes its message only, and items are joined as `code:message` pairs
separated by `", "`. -/
theorem C7_api_unsuccessful :
    (∀ (α : Type) (method : String) (mr : ℕ)
      (outcomes : ℕ → TransportOutcome α) (wantOut : Bool) (st : ℕ)
      (e : Envelope α),
      outcomes 0 = .response st (.env e) → 200 ≤ st → st < 300 →
      e.success = false →
      clientDo method mr outcomes wantOut =
        (1, .apiUnsuccessful ("cloudflare API returned unsuccessful response: "
          ++ formatAPIErrors e.errors)))
  ∧ formatAPIErrors [] = "unknown API error"
  ∧ (∀ m : String, formatAPIErrors [⟨0, m⟩] = m)
  ∧ formatAPIErrors [⟨1003, "bad"⟩, ⟨0, "oops"⟩] = "1003:bad, oops" := by
  refine ⟨?_, rfl, ?_, ?_⟩
  · intro α method mr outcomes wantOut st e h0 h1 h2 hsucc
    have hs := shouldRetryStatus_2xx h1 h2
    have hterm : ¬(st < 200 ∨ 300 ≤ st) := by omega
    cases mr with
    | zero => simp [clientDo, doFrom, h0, handleResponse, hterm, hsucc]
    | succ l => simp [clientDo, doFrom, h0, hs, handleResponse, hterm, hsucc]
  · intro m
    rfl
  · rfl

/-- C7 witness: a 200 response with `success=false` and one coded error is
terminal after one request with the formatted message. -/
theorem C7_api_unsuccessful_witness :
    clientDo (α := Unit) "GET" 3
      (fun _ => .response 200
        (.env ⟨false, [⟨10000, "rate limited"⟩], .emptyOrNull, none⟩)) true =
      (1, .apiUnsuccessful ("cloudflare API returned unsuccessful response: "
        ++ formatAPIErrors [⟨10000, "rate limited"⟩])) :=
  C7_api_unsuccessful.1 Unit "GET" 3
    (fun _ => .response 200
      (.env ⟨false, [⟨10000, "rate limited"⟩], .emptyOrNull, none⟩)) true 200
    ⟨false, [⟨10000, "rate limited"⟩], .emptyOrNull, none⟩ rfl
    (by omega) (by omega) rfl

/-- C9: lookup absence maps to dedicated sentinel errors that callers can
match programmatically: `ZoneIDByName` over a successful response with zero
matching zones fails with the zone-not-found sentinel (not a generic
request error), and a Vault KV v2 read receiving a 404 fails with the
secret-not-found sentinel. -/
theorem C9_not_found_sentinels :
    (∀ (mr : ℕ) (name : String)
      (outcomes : ℕ → TransportOutcome (List Zone)) (st : ℕ)
      (e : Envelope (List Zone)),
      goTrimSpace name ≠ "" →
      outcomes 0 = .response st (.env e) → 200 ≤ st → st < 300 →
      e.success = true → e.result = .value [] →
      zoneIDByName mr name outcomes = (1, .error (.zoneNotFound name)))
  ∧ (∀ n : String, isZoneNotFound (ZoneLookupErr.zoneNotFound n) = true)
  ∧ (∀ r, isZoneNotFound (ZoneLookupErr.requestError r) = false)
  ∧ (∀ (α : Type) (engine path raw : String) (body : VaultBody α),
      goTrimSlashes (goTrimSpace engine) ≠ "" →
      goTrimSlashes (goTrimSpace path) ≠ "" →
      readKVv2 engine path (some ⟨404, raw, body⟩) =
        .error (.secretNotFound path))
  ∧ (∀ p : String, isSecretNotFound (VaultErr.secretNotFound p) = true)
  ∧ (∀ st b, isSecretNotFound (VaultErr.readFailed st b) = false) := by
  refine ⟨?_, fun _ => rfl, fun _ => rfl, ?_, fun _ => rfl, fun _ _ => rfl⟩
  · intro mr name outcomes st e hname h0 h1 h2 hsucc hres
    have hs := shouldRetryStatus_2xx h1 h2
    have hterm : ¬(st < 200 ∨ 300 ≤ st) := by omega
    have hdo : clientDo "GET" mr outcomes true =
        (1, DoResult.ok (some ([] : List Zone))) := by
      cases mr with
      | zero =>
        simp [clientDo, doFrom, h0, handleResponse, hterm, hsucc, hres]
      | succ l =>
        simp [clientDo, doFrom, h0, hs, handleResponse, hterm, hsucc, hres]
    simp [zoneIDByName, hname, hdo]
  · intro α engine path raw body hm hp
    simp [readKVv2, hm, hp]

/-- C9 witness: the repository test scenarios — a successful empty zones
list for `"missing.acme.com"`, and a Vault 404 for `"missing/path"`. -/
theorem C9_not_found_sentinels_witness :
    zoneIDByName 3 "missing.acme.com"
      (fun _ => .response 200 (.env ⟨true, [], .value [], none⟩)) =
      (1, .error (.zoneNotFound "missing.acme.com"))
  ∧ readKVv2 (α := String) "secret" "missing/path"
      (some ⟨404, "not found", .undecodable⟩) =
      .error (.secretNotFound "missing/path") :=
  ⟨C9_not_found_sentinels.1 3 "missing.acme.com"
      (fun _ => .response 200 (.env ⟨true, [], .value [], none⟩)) 200
      ⟨true, [], .value [], none⟩ (by decide) rfl (by omega) (by omega)
      rfl rfl,
   C9_not_found_sentinels.2.2.2.1 String "secret" "missing/path"
      "not found" .undecodable (by decide) (by decide)⟩

/-- C10: a 2xx Vault read response whose body decodes without a non-null
nested `data.data` mapping makes `ReadKVv2` fail with an error naming the
secret path (never an empty or nil map), and a mapping is returned only when
the nested `data.data` object is present. -/
theorem C10_missing_secret_data :
    (∀ (α : Type) (engine path raw : String) (st : ℕ),
      goTrimSlashes (goTrimSpace engine) ≠ "" →
      goTrimSlashes (goTrimSpace path) ≠ "" →
      200 ≤ st → st < 300 →
      readKVv2 (α := α) engine path (some ⟨st, raw, .decoded none⟩) =
          .error (.missingSecretData path)
        ∧ vaultErrMessage (.missingSecretData path) =
            "vault response missing secret data at path: " ++ path)
  ∧ (∀ (α : Type) (engine path raw : String) (st : ℕ) (body : VaultBody α)
      (m : List (String × α)),
      readKVv2 engine path (some ⟨st, raw, body⟩) = .ok m →
      body = .decoded (some m)) := by
  constructor
  · intro α engine path raw st hm hp h1 h2
    have h404 : ¬st = 404 := by omega
    have hterm : ¬(st < 200 ∨ 300 ≤ st) := by omega
    exact ⟨by simp [readKVv2, hm, hp, h404, hterm], rfl⟩
  · intro α engine path raw st body m h
    simp only [readKVv2] at h
    split at h
    · exact Except.noConfusion h
    · split at h
      · exact Except.noConfusion h
      · split at h
        · exact Except.noConfusion h
        · split at h
          · exact Except.noConfusion h
          · cases body with
            | undecodable => exact Except.noConfusion h
            | decoded dd =>
              cases dd with
              | none => exact Except.noConfusion h
              | some m2 =>
                injection h with h2
                rw [h2]

/-- C10 witness: a 200 response decoding to a null `data.data` fails naming
the path; a present mapping is returned. -/
theorem C10_missing_secret_data_witness :
    readKVv2 (α := String) "secret" "team/app/credentials"
      (some ⟨200, "{}", .decoded none⟩) =
      .error (.missingSecretData "team/app/credentials")
  ∧ vaultErrMessage (.missingSecretData "team/app/credentials") =
      "vault response missing secret data at path: team/app/credentials" :=
  C10_missing_secret_data.1 String "secret" "team/app/credentials" "{}" 200
    (by decide) (by decide) (by omega) (by omega)

end PlatformCore
